import Mathlib

/-!
Verification of the host-side compute-dispatch example.

The sources are `src/main.rs` (byte reinterpretation helpers, the generic
`execute_kernel` round trip, and `main`) and `shared/src/lib.rs` (plain
record types shared with the shader).  GPU-side behaviour (adapter lookup,
device creation, kernel execution, buffer mapping) is delegated to the
external `wgpu` library; it is modelled here by an abstract environment
`GpuEnv` whose fields say which external steps succeed and what the kernel
writes into the storage buffer.  Machine bytes are modelled as `Nat`,
`u32` values as `Fin 4294967296`, and the `usize → u32` cast as `% 2^32`.
-/

/-- A machine byte (we never need the `< 256` bound for these claims). -/
abbrev Byte := Nat

/-- Model of `u32` (also used as the space of `f32` bit patterns). -/
abbrev U32 := Fin 4294967296

/-- Memory model of a Rust type `T` used as an opaque buffer element:
`sz` is `size_of::<T>()`, `toBytes` reads a value's bytes, `ofBytes`
reinterprets bytes back.  The two laws state what raw memory
reinterpretation gives for free: a value occupies exactly `sz` bytes, and
rereading the very bytes of a value yields that value. -/
structure OpaqueType (T : Type) where
  sz : Nat
  toBytes : T → List Byte
  ofBytes : List Byte → T
  length_toBytes : ∀ t, (toBytes t).length = sz
  ofBytes_toBytes : ∀ t, ofBytes (toBytes t) = t

/-- `fn opaque_array_to_bytes<T>(arr: &[T]) -> &[u8]` (main.rs lines 6-13):
the byte view of a slice, `size_of::<T>() * arr.len()` bytes long. -/
def opaque_array_to_bytes {T : Type} (O : OpaqueType T) (arr : List T) : List Byte :=
  (arr.map O.toBytes).flatten

/-- Read `count` consecutive `sz`-byte chunks from the start of a byte
buffer, the way `slice::from_raw_parts` walks element-sized strides. -/
def chunkBytes (sz : Nat) : Nat → List Byte → List (List Byte)
  | 0, _ => []
  | count + 1, bs => bs.take sz :: chunkBytes sz count (bs.drop sz)

/-- `fn bytes_to_opaque_array<T>(arr: &[u8]) -> &[T]` (main.rs lines 15-22):
reinterpret a byte buffer as `arr.len() / size_of::<T>()` values of `T`. -/
def bytes_to_opaque_array {T : Type} (O : OpaqueType T) (bs : List Byte) : List T :=
  (chunkBytes O.sz (bs.length / O.sz) bs).map O.ofBytes

theorem opaque_array_to_bytes_length {T : Type} (O : OpaqueType T) (arr : List T) :
    (opaque_array_to_bytes O arr).length = O.sz * arr.length := by
  induction arr with
  | nil => simp [opaque_array_to_bytes]
  | cons t rest ih =>
      simp only [opaque_array_to_bytes, List.map_cons, List.flatten] at ih ⊢
      simp [List.length_append, O.length_toBytes, ih, Nat.mul_succ, Nat.mul_add, Nat.add_comm]

theorem chunkBytes_length (sz count : Nat) (bs : List Byte) :
    (chunkBytes sz count bs).length = count := by
  induction count generalizing bs with
  | zero => rfl
  | succ k ih => simp [chunkBytes, ih]

theorem chunkBytes_cons (sz count : Nat) (c rest : List Byte) (hc : c.length = sz) :
    chunkBytes sz (count + 1) (c ++ rest) = c :: chunkBytes sz count rest := by
  simp only [chunkBytes]
  rw [← hc, List.take_left, List.drop_left]

/-- Round trip of the two reinterpretation helpers: reading the byte view
of a slice back at the same element type yields the original slice. -/
theorem opaque_roundtrip {T : Type} (O : OpaqueType T) (hsz : 0 < O.sz)
    (arr : List T) :
    bytes_to_opaque_array O (opaque_array_to_bytes O arr) = arr := by
  induction arr with
  | nil =>
      simp [bytes_to_opaque_array, opaque_array_to_bytes, chunkBytes]
  | cons t rest ih =>
      have hsplit : opaque_array_to_bytes O (t :: rest)
          = O.toBytes t ++ opaque_array_to_bytes O rest := by
        simp [opaque_array_to_bytes]
      have hcount : (opaque_array_to_bytes O (t :: rest)).length / O.sz
          = (opaque_array_to_bytes O rest).length / O.sz + 1 := by
        rw [hsplit]
        simp only [List.length_append, O.length_toBytes]
        rw [Nat.add_comm, Nat.add_div_right _ hsz]
      unfold bytes_to_opaque_array
      rw [hcount, hsplit,
        chunkBytes_cons O.sz _ (O.toBytes t) _ (O.length_toBytes t)]
      simp only [List.map_cons, O.ofBytes_toBytes]
      unfold bytes_to_opaque_array at ih
      rw [ih]

/-- One host-side call into the GPU library, in the order `execute_kernel`
(main.rs lines 24-148) performs them.  Buffer events carry the byte size
requested; `dispatch` carries the three workgroup counts. -/
inductive HostEvent where
  | requestAdapter
  | requestDevice
  | createShaderModule
  | createBindGroupLayout
  | createPipelineLayout
  | createComputePipeline
  | createReadbackBuffer (size : Nat)
  | createStorageBuffer (size : Nat)
  | createBindGroup
  | createEncoder
  | dispatch (x y z : Nat)
  | copyBufferToBuffer (size : Nat)
  | submit
  | mapAsync
  | poll
  | awaitMap
  deriving DecidableEq, Repr

/-- Abstract behaviour of the external GPU stack for one run: whether an
adapter is found, whether device creation succeeds, whether the readback
map future resolves with `Ok`, and how kernel execution transforms the
storage buffer's bytes.  The buffer has a fixed size, so the transform
preserves length. -/
structure GpuEnv where
  adapter_found : Bool
  device_ok : Bool
  map_ok : Bool
  run : List Byte → List Byte
  run_length : ∀ bs, (run bs).length = bs.length

/-- Result of running a Rust function that may panic. -/
inductive ExecOutcome (α : Type) where
  | panicked (msg : String)
  | result (r : α)
  deriving Repr, DecidableEq

/-- The Rust `as u32` cast on a (64-bit) `usize`: truncation mod `2^32`. -/
def usize_as_u32 (n : Nat) : Nat := n % 4294967296

/-- `pub async fn execute_kernel<T: Clone>` (main.rs lines 24-148), as the
outcome (panic / `Some` result / `None`) paired with the trace of host
calls into the GPU library.  `.expect` on a missing adapter or failed
device creation panics with the source's messages; otherwise the input is
viewed as bytes, uploaded, `input.len() as u32 / 64` workgroups are
dispatched, the storage buffer is copied back, and after `map_async`,
`poll` and the awaited map future the mapped bytes are reinterpreted as
`T` values; a failed map yields `None`. -/
def execute_kernel {T : Type} (O : OpaqueType T) (env : GpuEnv) (input : List T) :
    ExecOutcome (Option (List T)) × List HostEvent :=
  if env.adapter_found = false then
    (.panicked "Failed to find an appropriate adapter", [.requestAdapter])
  else if env.device_ok = false then
    (.panicked "Failed to create device", [.requestAdapter, .requestDevice])
  else
    let src := opaque_array_to_bytes O input
    let groups := usize_as_u32 input.length / 64
    let events : List HostEvent :=
      [.requestAdapter, .requestDevice, .createShaderModule,
       .createBindGroupLayout, .createPipelineLayout, .createComputePipeline,
       .createReadbackBuffer src.length, .createStorageBuffer src.length,
       .createBindGroup, .createEncoder, .dispatch groups 1 1,
       .copyBufferToBuffer src.length, .submit, .mapAsync, .poll, .awaitMap]
    if env.map_ok then
      (.result (some (bytes_to_opaque_array O (env.run src))), events)
    else
      (.result none, events)

/-- The `x` workgroup count of the first `dispatch` call in a trace. -/
def dispatchedGroups : List HostEvent → Option Nat
  | [] => none
  | .dispatch x _ _ :: _ => some x
  | _ :: rest => dispatchedGroups rest

/-- Little-endian bytes of a `u32` value, as laid out in memory on the
(little-endian) host. -/
def u32_le_bytes (v : Nat) : List Byte :=
  [v % 256, v / 256 % 256, v / 65536 % 256, v / 16777216 % 256]

/-- Read a `u32` back from four little-endian bytes. -/
def le_bytes_to_nat : List Byte → Nat
  | [b0, b1, b2, b3] => b0 + 256 * b1 + 65536 * b2 + 16777216 * b3
  | _ => 0

theorem le_bytes_roundtrip (v : Nat) (h : v < 4294967296) :
    le_bytes_to_nat (u32_le_bytes v) = v := by
  simp only [u32_le_bytes, le_bytes_to_nat]
  omega

def u32_of_bytes (bs : List Byte) : U32 :=
  ⟨le_bytes_to_nat bs % 4294967296, Nat.mod_lt _ (by omega)⟩

/-- The memory model of `u32` as a buffer element: 4 bytes, little endian. -/
def u32O : OpaqueType U32 where
  sz := 4
  toBytes v := u32_le_bytes v.val
  ofBytes := u32_of_bytes
  length_toBytes := by intro v; rfl
  ofBytes_toBytes := by
    intro v
    apply Fin.ext
    simp only [u32_of_bytes, le_bytes_roundtrip v.val v.isLt]
    exact Nat.mod_eq_of_lt v.isLt

/-- `glam::Vec4` as used by `shared::Ray`: four `f32` components, modelled
by their 32-bit patterns (`shared/src/lib.rs`, via `spirv_std::glam`). -/
structure Vec4 where
  x : U32
  y : U32
  z : U32
  w : U32
  deriving DecidableEq, Repr

/-- `shared::Ray` (shared/src/lib.rs lines 16-19): `#[repr(C)]` record of
an origin and a direction, 32 bytes in total. -/
structure Ray where
  origin : Vec4
  direction : Vec4
  deriving DecidableEq, Repr

def vec4_to_bytes (v : Vec4) : List Byte :=
  u32_le_bytes v.x.val ++ u32_le_bytes v.y.val ++ u32_le_bytes v.z.val ++ u32_le_bytes v.w.val

def vec4_of_bytes (bs : List Byte) : Vec4 where
  x := u32_of_bytes (bs.take 4)
  y := u32_of_bytes ((bs.drop 4).take 4)
  z := u32_of_bytes ((bs.drop 8).take 4)
  w := u32_of_bytes ((bs.drop 12).take 4)

def ray_to_bytes (r : Ray) : List Byte :=
  vec4_to_bytes r.origin ++ vec4_to_bytes r.direction

def ray_of_bytes (bs : List Byte) : Ray where
  origin := vec4_of_bytes (bs.take 16)
  direction := vec4_of_bytes (bs.drop 16)

theorem u32_of_le_bytes_val (v : U32) : u32_of_bytes (u32_le_bytes v.val) = v := by
  apply Fin.ext
  simp only [u32_of_bytes, le_bytes_roundtrip v.val v.isLt]
  exact Nat.mod_eq_of_lt v.isLt

/-- The `#[repr(C)]` memory model of `shared::Ray` as a buffer element:
32 bytes, the two `Vec4` fields in order, each component little endian. -/
def rayO : OpaqueType Ray where
  sz := 32
  toBytes := ray_to_bytes
  ofBytes := ray_of_bytes
  length_toBytes := by
    intro r
    simp [ray_to_bytes, vec4_to_bytes, u32_le_bytes]
  ofBytes_toBytes := by
    intro r
    simp only [ray_to_bytes, vec4_to_bytes, u32_le_bytes, ray_of_bytes, vec4_of_bytes,
      List.cons_append, List.nil_append, List.take, List.drop]
    cases r with
    | mk o d =>
      cases o with
      | mk ox oy oz ow =>
        cases d with
        | mk dx dy dz dw =>
          congr 1 <;> congr 1 <;> exact u32_of_le_bytes_val _

/-- `u32::from_ne_bytes` on four bytes of the (little-endian) host. -/
def u32_from_ne_bytes (b0 b1 b2 b3 : Byte) : Nat :=
  b0 + 256 * b1 + 65536 * b2 + 16777216 * b3

/-- The shader-word conversion in `main` (main.rs lines 155-160):
`KERNEL.chunks(4).map(|x| u32::from_ne_bytes(x.try_into().unwrap()))`.
`chunks(4)` yields a final short chunk when the length is not a multiple
of 4, and `try_into` to `[u8; 4]` fails on it, so the `unwrap` panics. -/
def kernel_words : List Byte → ExecOutcome (List Nat)
  | [] => .result []
  | b0 :: b1 :: b2 :: b3 :: rest =>
      match kernel_words rest with
      | .panicked m => .panicked m
      | .result ws => .result (u32_from_ne_bytes b0 b1 b2 b3 :: ws)
  | _ => .panicked "called `Result::unwrap()` on an `Err` value"

/-- Build-time inputs of the binary: the abstract GPU stack and the
contents of `KERNEL = include_bytes!(env!("compute.spv"))` (main.rs line
150), a blob fixed when the binary is built. -/
structure MainEnv where
  gpu : GpuEnv
  kernel : List Byte

/-- An `f32` holding a small integer exactly.  Every float built in `main`
is `id * k` for `id < 64`, `k ≤ 4`, so the arithmetic is exact and the
values are faithfully represented by the integers themselves. -/
def f32val (n : Nat) : U32 := ⟨n % 4294967296, Nat.mod_lt _ (by omega)⟩

/-- The fixed input sequence `main` constructs (main.rs lines 164-170):
64 rays, ray `id` having origin `(id, 2 id, 3 id, 4 id)` and direction
`(4 id, 3 id, 2 id, id)`. -/
def main_data : List Ray :=
  (List.range 64).map fun x =>
    { origin := ⟨f32val (x * 1), f32val (x * 2), f32val (x * 3), f32val (x * 4)⟩,
      direction := ⟨f32val (x * 4), f32val (x * 3), f32val (x * 2), f32val (x * 1)⟩ }

/-- What `main` prints on stdout (main.rs lines 172-175). -/
inductive MainOutput where
  | executionResult (r : List Ray)
  | errorExecuting
  deriving DecidableEq, Repr

/-- `fn main` (main.rs lines 152-176): convert the embedded kernel blob to
SPIR-V words (panicking on a short chunk), build the 64-ray input, run
`execute_kernel` under the executor, and print either the debug
representation of the result (`Some`) or an error message (`None`).
Paired with the trace of host GPU calls actually performed.  (Named
`rust_main` because Lean reserves the top-level name `main`.) -/
def rust_main (env : MainEnv) (O : OpaqueType Ray) : ExecOutcome MainOutput × List HostEvent :=
  match kernel_words env.kernel with
  | .panicked m => (.panicked m, [])
  | .result _words =>
      let ex := execute_kernel O env.gpu main_data
      (match ex.1 with
       | .panicked m => .panicked m
       | .result (some r) => .result (.executionResult r)
       | .result none => .result .errorExecuting,
       ex.2)

/-- Byte view of a `u32` slice, the monomorphic counterpart of
`opaque_array_to_bytes`. -/
def u32_array_to_bytes (arr : List U32) : List Byte :=
  (arr.map fun v => u32_le_bytes v.val).flatten

/-- Reinterpret a byte buffer as `u32` values, the monomorphic counterpart
of `bytes_to_opaque_array`. -/
def bytes_to_u32_array (bs : List Byte) : List U32 :=
  (chunkBytes 4 (bs.length / 4) bs).map u32_of_bytes

/-- Modelled from the spec: the spec says the host-to-device round-trip
sequence "is repeated (with a type-generic variant) in two near-duplicate
versions in the repo", but only the type-generic version is present under
the sources.  This is the missing non-generic version, with `u32` buffer
elements, performing the spec's linear sequence of host calls. -/
def variant_execute_kernel (env : GpuEnv) (input : List U32) :
    ExecOutcome (Option (List U32)) × List HostEvent :=
  if env.adapter_found = false then
    (.panicked "Failed to find an appropriate adapter", [.requestAdapter])
  else if env.device_ok = false then
    (.panicked "Failed to create device", [.requestAdapter, .requestDevice])
  else
    let src := u32_array_to_bytes input
    let groups := usize_as_u32 input.length / 64
    let events : List HostEvent :=
      [.requestAdapter, .requestDevice, .createShaderModule,
       .createBindGroupLayout, .createPipelineLayout, .createComputePipeline,
       .createReadbackBuffer src.length, .createStorageBuffer src.length,
       .createBindGroup, .createEncoder, .dispatch groups 1 1,
       .copyBufferToBuffer src.length, .submit, .mapAsync, .poll, .awaitMap]
    if env.map_ok then
      (.result (some (bytes_to_u32_array (env.run src))), events)
    else
      (.result none, events)

/-- A GPU stack in which every external step succeeds and the kernel
leaves the storage buffer unchanged. -/
def envOk : GpuEnv where
  adapter_found := true
  device_ok := true
  map_ok := true
  run := id
  run_length := fun _ => rfl

/-- A GPU stack in which setup succeeds but the readback map fails. -/
def envMapFail : GpuEnv where
  adapter_found := true
  device_ok := true
  map_ok := false
  run := id
  run_length := fun _ => rfl

/-- A GPU stack in which no appropriate adapter is found. -/
def envNoAdapter : GpuEnv where
  adapter_found := false
  device_ok := true
  map_ok := true
  run := id
  run_length := fun _ => rfl

theorem kernel_words_iff (bs : List Byte) :
    (∃ ws, kernel_words bs = .result ws) ↔ bs.length % 4 = 0 := by
  have H : ∀ n (bs : List Byte), bs.length = n →
      ((∃ ws, kernel_words bs = .result ws) ↔ bs.length % 4 = 0) := by
    intro n
    induction n using Nat.strong_induction_on with
    | _ n ih =>
      intro bs hn
      match bs with
      | [] => simp [kernel_words]
      | [b0] => simp [kernel_words]
      | [b0, b1] => simp [kernel_words]
      | [b0, b1, b2] => simp [kernel_words]
      | b0 :: b1 :: b2 :: b3 :: rest =>
        have hlen : (b0 :: b1 :: b2 :: b3 :: rest).length % 4 = rest.length % 4 := by
          simp only [List.length_cons]
          omega
        have hn4 : rest.length < n := by
          simp only [List.length_cons] at hn
          omega
        have hrec := ih rest.length hn4 rest rfl
        rw [hlen]
        cases hk : kernel_words rest with
        | panicked m =>
          constructor
          · intro hex
            obtain ⟨ws, hws⟩ := hex
            simp only [kernel_words, hk] at hws
            cases hws
          · intro h4
            obtain ⟨ws, hws⟩ := hrec.mpr h4
            rw [hk] at hws
            cases hws
        | result ws =>
          constructor
          · intro _
            exact hrec.mp ⟨ws, hk⟩
          · intro _
            exact ⟨u32_from_ne_bytes b0 b1 b2 b3 :: ws, by simp [kernel_words, hk]⟩
  exact H bs.length bs rfl

theorem main_data_length : main_data.length = 64 := by
  simp [main_data]

/-- A GPU stack where every step succeeds and the kernel reverses the
storage buffer's bytes (an in-place transform of the fixed-size buffer). -/
def envRev : GpuEnv where
  adapter_found := true
  device_ok := true
  map_ok := true
  run := List.reverse
  run_length := fun bs => List.length_reverse bs

/-- C1: if the adapter and device setup steps of `execute_kernel` succeed
but the final readback buffer map fails, `execute_kernel` returns `None`
rather than panicking; and it returns `Some` exactly when the map future
resolves successfully. -/
theorem execute_kernel_map_failure_yields_none {T : Type} (O : OpaqueType T)
    (env : GpuEnv) (input : List T)
    (ha : env.adapter_found = true) (hd : env.device_ok = true) :
    (env.map_ok = false → (execute_kernel O env input).1 = ExecOutcome.result none)
    ∧ ((∃ r, (execute_kernel O env input).1 = ExecOutcome.result (some r))
        ↔ env.map_ok = true) := by
  constructor
  · intro hm
    simp [execute_kernel, ha, hd, hm]
  · constructor
    · intro hex
      obtain ⟨r, hr⟩ := hex
      cases hm : env.map_ok with
      | true => rfl
      | false => simp [execute_kernel, ha, hd, hm] at hr
    · intro hm
      exact ⟨bytes_to_opaque_array O (env.run (opaque_array_to_bytes O input)),
        by simp [execute_kernel, ha, hd, hm]⟩

/-- Witness for C1 at a concrete type, environment and input. -/
theorem execute_kernel_map_failure_yields_none_witness :
    (envMapFail.map_ok = false →
        (execute_kernel u32O envMapFail [(5 : U32)]).1 = ExecOutcome.result none)
    ∧ ((∃ r, (execute_kernel u32O envMapFail [(5 : U32)]).1
          = ExecOutcome.result (some r)) ↔ envMapFail.map_ok = true) :=
  execute_kernel_map_failure_yields_none u32O envMapFail [(5 : U32)] rfl rfl

/-- C2: for every element type of positive size, viewing a slice as raw
bytes with `opaque_array_to_bytes` and reinterpreting those bytes back
with `bytes_to_opaque_array` yields the original slice. -/
theorem opaque_array_bytes_roundtrip {T : Type} (O : OpaqueType T)
    (hsz : 0 < O.sz) (arr : List T) :
    bytes_to_opaque_array O (opaque_array_to_bytes O arr) = arr :=
  opaque_roundtrip O hsz arr

/-- Witness for C2 on a concrete `u32` slice. -/
theorem opaque_array_bytes_roundtrip_witness :
    0 < u32O.sz
    ∧ bytes_to_opaque_array u32O (opaque_array_to_bytes u32O [(7 : U32), (9 : U32)])
        = [(7 : U32), (9 : U32)] :=
  ⟨by decide, opaque_array_bytes_roundtrip u32O (by decide) [(7 : U32), (9 : U32)]⟩

/-- C3: if a setup step of `execute_kernel` fails — no adapter is found,
or device creation fails — the function panics (the `.expect` calls)
instead of returning a value to the caller. -/
theorem execute_kernel_setup_failure_panics {T : Type} (O : OpaqueType T)
    (env : GpuEnv) (input : List T)
    (h : env.adapter_found = false ∨ env.device_ok = false) :
    ∃ msg, (execute_kernel O env input).1 = ExecOutcome.panicked msg := by
  cases ha : env.adapter_found with
  | false =>
      exact ⟨"Failed to find an appropriate adapter", by simp [execute_kernel, ha]⟩
  | true =>
      cases hd : env.device_ok with
      | false =>
          exact ⟨"Failed to create device", by simp [execute_kernel, ha, hd]⟩
      | true =>
          rcases h with h | h
          · rw [ha] at h; cases h
          · rw [hd] at h; cases h

/-- Witness for C3 at an environment with no adapter. -/
theorem execute_kernel_setup_failure_panics_witness :
    ∃ msg, (execute_kernel u32O envNoAdapter [(1 : U32)]).1
      = ExecOutcome.panicked msg :=
  execute_kernel_setup_failure_panics u32O envNoAdapter [(1 : U32)] (Or.inl rfl)

/-- The build-time inputs of the shipped binary with a well-formed (empty)
kernel blob and a fully working GPU stack, for concrete runs. -/
def mainEnvOk : MainEnv where
  gpu := envOk
  kernel := []

/-- C5: the shader blob is embedded at build time (the `kernel` component
of `MainEnv`, from `include_bytes!(env!("compute.spv"))`), and whenever it
converts to SPIR-V words, `main` prints the debug representation of the
returned ray buffer if `execute_kernel` returns `Some`, and an error
message if it returns `None`. -/
theorem rust_main_prints_result_or_error (env : MainEnv) (O : OpaqueType Ray)
    (hk : env.kernel.length % 4 = 0) :
    (∀ r, (execute_kernel O env.gpu main_data).1 = ExecOutcome.result (some r) →
        (rust_main env O).1 = ExecOutcome.result (MainOutput.executionResult r))
    ∧ ((execute_kernel O env.gpu main_data).1 = ExecOutcome.result none →
        (rust_main env O).1 = ExecOutcome.result MainOutput.errorExecuting) := by
  obtain ⟨ws, hws⟩ := (kernel_words_iff env.kernel).mpr hk
  constructor
  · intro r hr
    simp [rust_main, hws, hr]
  · intro hr
    simp [rust_main, hws, hr]

/-- Witness for C5: with the identity kernel the 64 rays come back
unchanged and `main` prints them. -/
theorem rust_main_prints_result_or_error_witness :
    (rust_main mainEnvOk rayO).1
      = ExecOutcome.result (MainOutput.executionResult main_data) := by
  have hx : (execute_kernel rayO mainEnvOk.gpu main_data).1
      = ExecOutcome.result (some main_data) := by
    have hrt := opaque_roundtrip rayO (by decide) main_data
    simp [execute_kernel, mainEnvOk, envOk, hrt]
  exact (rust_main_prints_result_or_error mainEnvOk rayO (by decide)).1 main_data hx

/-- C6: the host-to-device round-trip sequence exists as a type-generic
version (`execute_kernel`, from the sources) and, per the spec, as a
near-duplicate non-generic version (`variant_execute_kernel`, modelled
from the spec); at `u32` elements the two perform the same sequence of
host calls and produce the same outcome. -/
theorem variant_execute_kernel_matches_generic (env : GpuEnv) (input : List U32) :
    variant_execute_kernel env input = execute_kernel u32O env input := rfl

/-- The process entry point as invoked with a command-line argument
vector: `fn main()` takes no arguments and never reads `std::env::args`,
so the vector is ignored. -/
def rust_main_with_args (_args : List String) (env : MainEnv) (O : OpaqueType Ray) :
    ExecOutcome MainOutput × List HostEvent :=
  rust_main env O

/-- C7: two runs of `main` with different argument vectors behave
identically — the outcome and the host-call trace depend only on the
embedded kernel blob, the GPU stack, and the fixed input sequence. -/
theorem rust_main_args_irrelevant (a b : List String) (env : MainEnv)
    (O : OpaqueType Ray) :
    rust_main_with_args a env O = rust_main_with_args b env O := rfl

/-- C8: whenever `execute_kernel` returns `Some(result)` for an element
type of positive size, the result has exactly as many elements as the
input: the readback buffer holds `size_of::<T>() * input.len()` bytes and
is reinterpreted back at element size `size_of::<T>()`. -/
theorem execute_kernel_result_length {T : Type} (O : OpaqueType T)
    (env : GpuEnv) (input : List T) (r : List T) (hsz : 0 < O.sz)
    (h : (execute_kernel O env input).1 = ExecOutcome.result (some r)) :
    r.length = input.length := by
  cases ha : env.adapter_found with
  | false => simp [execute_kernel, ha] at h
  | true =>
    cases hd : env.device_ok with
    | false => simp [execute_kernel, ha, hd] at h
    | true =>
      cases hm : env.map_ok with
      | false => simp [execute_kernel, ha, hd, hm] at h
      | true =>
        simp [execute_kernel, ha, hd, hm] at h
        rw [← h]
        simp only [bytes_to_opaque_array, List.length_map, chunkBytes_length]
        rw [env.run_length, opaque_array_to_bytes_length]
        exact Nat.mul_div_cancel_left _ hsz

/-- Witness for C8: a byte-reversing kernel changes the values but the
`Some` result still has the input's length. -/
theorem execute_kernel_result_length_witness :
    ([(50331648 : U32), (33554432 : U32), (16777216 : U32)] : List U32).length
      = ([(1 : U32), (2 : U32), (3 : U32)] : List U32).length := by
  have h : (execute_kernel u32O envRev [(1 : U32), (2 : U32), (3 : U32)]).1
      = ExecOutcome.result
          (some [(50331648 : U32), (33554432 : U32), (16777216 : U32)]) := by
    decide
  exact execute_kernel_result_length u32O envRev
    [(1 : U32), (2 : U32), (3 : U32)]
    [(50331648 : U32), (33554432 : U32), (16777216 : U32)] (by decide) h

/-- Counterexample to C9 as stated: for an input of `2^32` elements the
code dispatches `(input.len() as u32) / 64 = 0` workgroups, not the
flooring division `input.len() / 64 = 2^26`: the `usize → u32` cast
truncates before dividing. -/
theorem execute_kernel_dispatch_not_floor_div :
    dispatchedGroups
        (execute_kernel u32O envOk (List.replicate 4294967296 (0 : U32))).2
      ≠ some ((List.replicate 4294967296 (0 : U32)).length / 64) := by
  have key : ∀ inp : List U32, inp.length = 4294967296 →
      dispatchedGroups (execute_kernel u32O envOk inp).2 = some 0 := by
    intro inp hlen
    simp [execute_kernel, envOk, dispatchedGroups, usize_as_u32, hlen]
  have hlen : (List.replicate 4294967296 (0 : U32)).length = 4294967296 :=
    List.length_replicate 4294967296 (0 : U32)
  rw [key _ hlen, hlen]
  decide

/-- C9 (amended): the workgroup count dispatched by `execute_kernel` is
`(input.len() mod 2^32) / 64` — the `usize` length truncated to `u32`,
then floor-divided by 64 — which coincides with `input.len() / 64` for
all inputs shorter than `2^32`; in particular every input with fewer than
64 elements dispatches zero workgroups, and the 64-element ray sequence
built in `main` dispatches exactly one. -/
theorem execute_kernel_dispatch_groups {T : Type} (O : OpaqueType T)
    (env : GpuEnv) (input : List T)
    (ha : env.adapter_found = true) (hd : env.device_ok = true) :
    dispatchedGroups (execute_kernel O env input).2
      = some (input.length % 4294967296 / 64)
    ∧ (input.length < 64 →
        dispatchedGroups (execute_kernel O env input).2 = some 0)
    ∧ (∀ e2 : GpuEnv, e2.adapter_found = true → e2.device_ok = true →
        dispatchedGroups (execute_kernel rayO e2 main_data).2 = some 1) := by
  have hmain : ∀ (U : Type) (OU : OpaqueType U) (e : GpuEnv) (inp : List U),
      e.adapter_found = true → e.device_ok = true →
      dispatchedGroups (execute_kernel OU e inp).2
        = some (inp.length % 4294967296 / 64) := by
    intro U OU e inp ha2 hd2
    cases hm : e.map_ok with
    | true => simp [execute_kernel, ha2, hd2, hm, dispatchedGroups, usize_as_u32]
    | false => simp [execute_kernel, ha2, hd2, hm, dispatchedGroups, usize_as_u32]
  refine ⟨hmain T O env input ha hd, ?_, ?_⟩
  · intro hlt
    rw [hmain T O env input ha hd]
    have hmod : input.length % 4294967296 = input.length :=
      Nat.mod_eq_of_lt (by omega)
    rw [hmod, Nat.div_eq_of_lt hlt]
  · intro e2 ha2 hd2
    rw [hmain Ray rayO e2 main_data ha2 hd2, main_data_length]

/-- Witness for C9 (amended): three elements dispatch zero workgroups and
the 64 rays of `main` dispatch one. -/
theorem execute_kernel_dispatch_groups_witness :
    dispatchedGroups (execute_kernel u32O envOk [(1 : U32), (2 : U32), (3 : U32)]).2
        = some 0
    ∧ dispatchedGroups (execute_kernel rayO envOk main_data).2 = some 1 :=
  ⟨(execute_kernel_dispatch_groups u32O envOk [(1 : U32), (2 : U32), (3 : U32)]
      rfl rfl).2.1 (by decide),
   (execute_kernel_dispatch_groups u32O envOk [(1 : U32), (2 : U32), (3 : U32)]
      rfl rfl).2.2 envOk rfl rfl⟩

/-- C10: converting the embedded kernel blob into 32-bit SPIR-V words
succeeds (every 4-byte-chunk `unwrap` is safe) exactly when the blob's
byte length is a multiple of 4; for any other length `main` panics before
performing any GPU call, in particular before dispatching. -/
theorem kernel_word_conversion_multiple_of_4 (bs : List Byte) :
    ((∃ ws, kernel_words bs = ExecOutcome.result ws) ↔ bs.length % 4 = 0)
    ∧ (bs.length % 4 ≠ 0 → ∀ (g : GpuEnv) (O : OpaqueType Ray),
        dispatchedGroups (rust_main ⟨g, bs⟩ O).2 = none
        ∧ ∃ m, (rust_main ⟨g, bs⟩ O).1 = ExecOutcome.panicked m) := by
  refine ⟨kernel_words_iff bs, ?_⟩
  intro h4 g O
  cases hk : kernel_words bs with
  | result ws => exact absurd ((kernel_words_iff bs).mp ⟨ws, hk⟩) h4
  | panicked m =>
      constructor
      · simp [rust_main, hk, dispatchedGroups]
      · exact ⟨m, by simp [rust_main, hk]⟩

/-- Witness for C10 at a 3-byte blob. -/
theorem kernel_word_conversion_multiple_of_4_witness :
    dispatchedGroups (rust_main ⟨envOk, [1, 2, 3]⟩ rayO).2 = none
    ∧ ∃ m, (rust_main ⟨envOk, [1, 2, 3]⟩ rayO).1 = ExecOutcome.panicked m :=
  (kernel_word_conversion_multiple_of_4 [1, 2, 3]).2 (by decide) envOk rayO
